import Mathlib

/-!
Verification of the zoe-pointcloud reconstruction tool (src/main.cpp).

The development shallowly embeds the program: machine floats are modelled
as exact rationals, decoded image buffers as lists of natural-number
samples, the GL object store as an explicit state record, and the
fixed-stride pixel loops as fuel-bounded recursion (the fuel equals the
loop bound, which suffices whenever the stride is at least 1).
-/

/-- A decoded raster as returned by the stb decoder: reported source
channel count in channels (the ch out-parameter), and the decoded
samples in data.  Both stbi_load and stbi_load_16 are invoked with 3
desired channels (main.cpp lines 146-147), so data holds 3 samples per
pixel regardless of the source channel count. -/
structure RawImage where
  width : ℕ
  height : ℕ
  channels : ℕ
  data : List ℕ

/-- Model of the external decoder conversion performed by stb_image when
a 1-channel (grayscale) source is requested with 3 desired channels: the
gray sample of each pixel is replicated into all three output channels.
This is the behavior of the stb convert-format path for the 1-to-3
channel combination; it is what makes the 3-channel-stride index on the
depth buffer land on the correct pixel. -/
def expandGrayTo3 (src : List ℕ) : List ℕ :=
  src.flatMap fun g => [g, g, g]

/-- vertex_t from main.cpp lines 18-21: a position and a color. -/
structure vertex_t where
  position : ℚ × ℚ × ℚ
  color : ℚ × ℚ × ℚ

/-- depth_cloud_result_t from main.cpp lines 23-26. -/
structure depth_cloud_result_t where
  vertices : List vertex_t
  max_depth : ℚ

/-- The value of generate_depth_cloud together with which of the two
decoded rasters were passed to stbi_image_free on the taken path. -/
structure gen_output where
  result : Except String depth_cloud_result_t
  freedColor : Bool
  freedDepth : Bool

/-- One for-loop of main.cpp line 166 / 167: the values v = start,
start + stride, ... while v < bound, bounded by fuel.  Fuel bound
suffices when stride is at least 1 (each step advances by at least one). -/
def strideListAux : ℕ → ℕ → ℕ → ℕ → List ℕ
  | 0, _, _, _ => []
  | f + 1, bound, stride, v =>
    if v < bound then v :: strideListAux f bound stride (v + stride) else []

/-- The index sequence of a loop for (v = 0; v < bound; v += stride). -/
def strideList (bound stride : ℕ) : List ℕ :=
  strideListAux bound bound stride 0

/-- The (u, v) pixel coordinates visited by the nested loops of
main.cpp lines 166-169, in iteration order: rows outermost, the
continue guard of line 168 skipping any out-of-range coordinate. -/
def visitedCoords (w h stride : ℕ) : List (ℕ × ℕ) :=
  (strideList h stride).flatMap fun v =>
    (strideList w stride).filterMap fun u =>
      if h ≤ v ∨ w ≤ u then none else some (u, v)

/-- The gray sample read for pixel (u, v) at main.cpp lines 171/176:
the depth buffer is indexed with index = (u + v * width) * ch1, the
color channel count. -/
def grayAt (img dep : RawImage) (u v : ℕ) : ℕ :=
  dep.data.getD ((u + v * img.width) * img.channels) 0

/-- The metric depth used for pixel (u, v), main.cpp line 179:
the raw gray sample divided by 255. -/
def depthAt (img dep : RawImage) (u v : ℕ) : ℚ :=
  (grayAt img dep u v : ℚ) / 255

/-- Loop body of main.cpp lines 171-196 for one visited pixel (u, v):
reads the three color bytes and the gray sample at
index = (u + v * w1) * ch1, scales the gray by 1/255, and builds the
vertex with the mirrored pinhole back-projection
(w1 - u - center_w, h1 - v - center_h) where center_w = w1 * 0.5. -/
def pixelVertex (img dep : RawImage) (focal_length : ℚ) (uv : ℕ × ℕ) : vertex_t :=
  let u := uv.1
  let v := uv.2
  let w1 := img.width
  let h1 := img.height
  let center_w : ℚ := (w1 : ℚ) * (1/2)
  let center_h : ℚ := (h1 : ℚ) * (1/2)
  let index := (u + v * w1) * img.channels
  let r := img.data.getD index 0
  let g := img.data.getD (index + 1) 0
  let b := img.data.getD (index + 2) 0
  let depth : ℚ := depthAt img dep u v
  { position :=
      (depth * ((w1 : ℚ) - (u : ℚ) - center_w) / focal_length,
       depth * ((h1 : ℚ) - (v : ℚ) - center_h) / focal_length,
       depth),
    color := ((r : ℚ) / 255, (g : ℚ) / 255, (b : ℚ) / 255) }

/-- The max_depth update of main.cpp lines 181-182. -/
def maxStep (m d : ℚ) : ℚ :=
  if d > m then d else m

/-- generate_depth_cloud, main.cpp lines 139-204.  The two Option
arguments are the outcomes of the two stbi_load calls (none models a
NULL return).  The interleaved loop of lines 166-198 appends one vertex
per visited pixel and folds the max_depth update over the same visit
sequence; freedColor / freedDepth record the stbi_image_free calls made
on the taken return path (none are made on the early IoError return of
lines 149-150). -/
def generate_depth_cloud (pixels1 pixels2 : Option RawImage)
    (focal_length : ℚ) (stride : ℕ) : gen_output :=
  match pixels1, pixels2 with
  | some img, some dep =>
    if img.width ≠ dep.width ∨ img.height ≠ dep.height ∨
        img.channels ≠ 3 ∨ dep.channels ≠ 1 then
      { result := .error "Image and depth map not same resolution or invalid channel count.",
        freedColor := true, freedDepth := true }
    else
      let coords := visitedCoords img.width img.height stride
      { result := .ok
          { vertices := coords.map (pixelVertex img dep focal_length),
            max_depth := coords.foldl (fun m uv => maxStep m (depthAt img dep uv.1 uv.2)) 0 },
        freedColor := true, freedDepth := true }
  | _, _ =>
    { result := .error "Failed to read image or depth map.",
      freedColor := false, freedDepth := false }

/-- Ceiling division on naturals, used to state the visited-pixel count
ceil(bound / stride). -/
def cdiv (a s : ℕ) : ℕ :=
  (a + s - 1) / s

/-- The strided grid in row-major order as the specification describes
it: ceil(h/stride) rows of ceil(w/stride) columns, row j column i at
pixel (i * stride, j * stride). -/
def rowMajorGrid (w h stride : ℕ) : List (ℕ × ℕ) :=
  (List.range (cdiv h stride)).flatMap fun j =>
    (List.range (cdiv w stride)).map fun i => (i * stride, j * stride)

/-- The GL object store: a fresh-name counter and the sets of live
shader and program objects, as lists of handles. -/
structure GLState where
  nextId : ℕ
  liveShaders : List ℕ
  livePrograms : List ℕ

/-- glCreateShader: allocates a fresh shader handle. -/
def glCreateShader (st : GLState) : GLState × ℕ :=
  ({ st with nextId := st.nextId + 1, liveShaders := st.nextId :: st.liveShaders },
   st.nextId)

/-- glDeleteShader: releases a shader handle. -/
def glDeleteShader (st : GLState) (id : ℕ) : GLState :=
  { st with liveShaders := st.liveShaders.erase id }

/-- glCreateProgram: allocates a fresh program handle. -/
def glCreateProgram (st : GLState) : GLState × ℕ :=
  ({ st with nextId := st.nextId + 1, livePrograms := st.nextId :: st.livePrograms },
   st.nextId)

/-- glDeleteProgram: releases a program handle. -/
def glDeleteProgram (st : GLState) (id : ℕ) : GLState :=
  { st with livePrograms := st.livePrograms.erase id }

/-- create_shader, main.cpp lines 55-81: creates a shader object,
compiles it (the driver outcome and log are the compileOk / log
parameters), deletes the object and returns the error when compilation
fails, and returns the handle otherwise. -/
def create_shader (st : GLState) (compileOk : Bool) (log : String) :
    GLState × Except String ℕ :=
  let created := glCreateShader st
  if compileOk then
    (created.1, .ok created.2)
  else
    (glDeleteShader created.1 created.2, .error ("Shader compilation error: " ++ log))

/-- create_program(GLuint, GLuint), main.cpp lines 83-108: creates a
program, attaches both stages and links (driver outcome linkOk); on
link failure deletes the program and returns the error. -/
def create_program_link (st : GLState) (vs fs : ℕ) (linkOk : Bool) (log : String) :
    GLState × Except String ℕ :=
  let created := glCreateProgram st
  if linkOk then
    (created.1, .ok created.2)
  else
    (glDeleteProgram created.1 created.2, .error ("Shader program linking error: " ++ log))

/-- create_program(path, path), main.cpp lines 110-137: reads both
sources (the Except arguments are the read_file_contents outcomes),
compiles the vertex then the fragment stage, deletes the vertex stage
when the fragment stage fails (line 126), links, then deletes both
stages (lines 132-133) before inspecting the link outcome. -/
def create_program_from_files (st : GLState)
    (vsRead fsRead : Except String String)
    (vsOk : Bool) (vsLog : String) (fsOk : Bool) (fsLog : String)
    (linkOk : Bool) (linkLog : String) : GLState × Except String ℕ :=
  match vsRead with
  | .error e => (st, .error e)
  | .ok _ =>
    match fsRead with
    | .error e => (st, .error e)
    | .ok _ =>
      let vsStep := create_shader st vsOk vsLog
      match vsStep.2 with
      | .error e => (vsStep.1, .error e)
      | .ok vs =>
        let fsStep := create_shader vsStep.1 fsOk fsLog
        match fsStep.2 with
        | .error e => (glDeleteShader fsStep.1 vs, .error e)
        | .ok fs =>
          let linkStep := create_program_link fsStep.1 vs fs linkOk linkLog
          let cleaned := glDeleteShader (glDeleteShader linkStep.1 vs) fs
          match linkStep.2 with
          | .error e => (cleaned, .error e)
          | .ok p => (cleaned, .ok p)

/-- camera_t, main.cpp lines 33-41. -/
structure camera_t where
  origin : ℚ × ℚ × ℚ
  distance : ℚ
  pitch : ℚ
  yaw : ℚ
  rotate_speed : ℚ
  pan_speed : ℚ
  zoom_scale : ℚ

/-- The SDL_MOUSEWHEEL handler, main.cpp lines 400-406: scroll up
divides the distance by (1 + zoom_scale), scroll down multiplies it by
(1 + zoom_scale), and the result is clamped with max(0, distance). -/
def applyZoom (c : camera_t) (wheelY : ℤ) : camera_t :=
  let stepped :=
    if 0 < wheelY then
      { c with distance := c.distance / (1 + c.zoom_scale) }
    else if wheelY < 0 then
      { c with distance := c.distance * (1 + c.zoom_scale) }
    else
      c
  { stepped with distance := max 0 stepped.distance }

/-- The session state touched by the Generate button handler: the
displayed vertices option, the camera, the per-instance GPU buffer
contents, and the recorded error message / popup flag. -/
structure Session where
  vertices : Option (List vertex_t)
  camera : camera_t
  instanceBuffer : List vertex_t
  last_error_message : String
  errorPopupOpen : Bool

/-- The Generate button handler, main.cpp lines 459-471: on error only
the error message is recorded and the popup opened; on success the
vertices option is replaced, the camera origin recentered to
(0, 0, max_depth) and the per-instance buffer re-uploaded wholesale. -/
def onGenerateClick (s : Session) (o : gen_output) : Session :=
  match o.result with
  | .error e =>
    { s with last_error_message := e, errorPopupOpen := true }
  | .ok r =>
    { s with vertices := some r.vertices,
             camera := { s.camera with origin := (0, 0, r.max_depth) },
             instanceBuffer := r.vertices }

/-- The camera initial state, main.cpp lines 327-336. -/
def initial_camera : camera_t :=
  { origin := (0, 0, 0), distance := 5, pitch := 0, yaw := 90,
    rotate_speed := 1/10, pan_speed := 5/1000, zoom_scale := 1/10 }

/-- Concrete 1x1 color raster used to evaluate the pipeline. -/
def c1img : RawImage := ⟨1, 1, 3, [10, 20, 30]⟩

/-- Concrete 1x1 depth raster (gray source sample 5, decoder-expanded). -/
def c1dep : RawImage := ⟨1, 1, 1, [5, 5, 5]⟩

/-- The reconstruction result on the concrete 1x1 pair, focal length 2,
stride 1. -/
def c1res : depth_cloud_result_t :=
  match (generate_depth_cloud (some c1img) (some c1dep) 2 1).result with
  | .ok r => r
  | .error _ => { vertices := [], max_depth := 0 }

/-- Concrete 2x1 color raster. -/
def c2img : RawImage := ⟨2, 1, 3, [0, 0, 0, 0, 0, 0]⟩

/-- Concrete 2x1 depth raster: decoder-expanded form of the 1-channel
source [5, 9]. -/
def c2dep : RawImage := ⟨2, 1, 1, expandGrayTo3 [5, 9]⟩

/-- The reconstruction result on the 2x1 pair, focal length 1, stride 1. -/
def c2res : depth_cloud_result_t :=
  match (generate_depth_cloud (some c2img) (some c2dep) 1 1).result with
  | .ok r => r
  | .error _ => { vertices := [], max_depth := 0 }

/-- Concrete 3x2 color raster (all-zero samples). -/
def c3img : RawImage := ⟨3, 2, 3, List.replicate 18 0⟩

/-- Concrete 3x2 depth raster (all-zero samples). -/
def c3dep : RawImage := ⟨3, 2, 1, List.replicate 18 0⟩

/-- The reconstruction result on the 3x2 pair, focal length 1, stride 2. -/
def c3res : depth_cloud_result_t :=
  match (generate_depth_cloud (some c3img) (some c3dep) 1 2).result with
  | .ok r => r
  | .error _ => { vertices := [], max_depth := 0 }

/-- Concrete 1x1 depth raster with gray sample 7. -/
def c4dep : RawImage := ⟨1, 1, 1, [7, 7, 7]⟩

/-- The reconstruction result on the 1x1 pair with depth sample 7. -/
def c4res : depth_cloud_result_t :=
  match (generate_depth_cloud (some c1img) (some c4dep) 1 1).result with
  | .ok r => r
  | .error _ => { vertices := [], max_depth := 0 }

/-- Mismatched pair from the specification example: color 4x4x3. -/
def c6img : RawImage := ⟨4, 4, 3, List.replicate 48 0⟩

/-- Mismatched pair from the specification example: depth 2x2x1. -/
def c6dep : RawImage := ⟨2, 2, 1, List.replicate 12 0⟩

/-- A concrete session: no cloud yet, initial camera, empty buffer. -/
def c8sess : Session := ⟨none, initial_camera, [], "", false⟩

/-- The initial camera with distance 1, used to evaluate applyZoom. -/
def c9cam : camera_t := { initial_camera with distance := 1 }

/-! ## Helper lemmas -/

theorem cdiv_zero (s : ℕ) (hs : 1 ≤ s) : cdiv 0 s = 0 := by
  unfold cdiv
  exact Nat.div_eq_of_lt (by omega)

theorem cdiv_succ (a s : ℕ) (hs : 1 ≤ s) (ha : 0 < a) :
    cdiv a s = cdiv (a - s) s + 1 := by
  have h1 : a + s - 1 = (a - 1) + s := by omega
  by_cases hle : a ≤ s
  · have h2 : a - s = 0 := by omega
    rw [h2, cdiv_zero s hs]
    unfold cdiv
    rw [h1, Nat.add_div_right _ (by omega : 0 < s),
      Nat.div_eq_of_lt (by omega : a - 1 < s)]
  · have h3 : a - s + s - 1 = (a - s - 1) + s := by omega
    unfold cdiv
    rw [h1, h3, Nat.add_div_right _ (by omega : 0 < s),
      Nat.add_div_right _ (by omega : 0 < s)]
    have h4 : a - 1 = (a - s - 1) + s := by omega
    rw [h4, Nat.add_div_right _ (by omega : 0 < s)]

theorem strideListAux_eq (s : ℕ) (hs : 1 ≤ s) :
    ∀ (f b v : ℕ), b ≤ v + f →
      strideListAux f b s v = (List.range (cdiv (b - v) s)).map fun i => v + i * s := by
  intro f
  induction f with
  | zero =>
    intro b v hb
    have hz : b - v = 0 := by omega
    rw [hz, cdiv_zero s hs]
    rfl
  | succ f ih =>
    intro b v hb
    simp only [strideListAux]
    by_cases hv : v < b
    · rw [if_pos hv, ih b (v + s) (by omega)]
      have hbv : b - (v + s) = b - v - s := by omega
      rw [hbv, cdiv_succ (b - v) s hs (by omega), List.range_succ_eq_map,
        List.map_cons, List.map_map]
      have hhead : v + 0 * s = v := by ring
      rw [hhead]
      congr 1
      apply List.map_congr_left
      intro i _
      simp only [Function.comp_apply, Nat.succ_eq_add_one]
      ring
    · rw [if_neg hv]
      have hz : b - v = 0 := by omega
      rw [hz, cdiv_zero s hs]
      rfl

theorem strideList_eq (b s : ℕ) (hs : 1 ≤ s) :
    strideList b s = (List.range (cdiv b s)).map (· * s) := by
  unfold strideList
  rw [strideListAux_eq s hs b b 0 (by omega)]
  simp

theorem strideIndex_lt {b s i : ℕ} (hs : 1 ≤ s) (hi : i < cdiv b s) : i * s < b := by
  have hb : 1 ≤ b := by
    by_contra hb
    have hb0 : b = 0 := by omega
    rw [hb0, cdiv_zero s hs] at hi
    omega
  have h1 : (i + 1) * s ≤ cdiv b s * s := Nat.mul_le_mul_right s (by omega)
  have h2 : cdiv b s * s ≤ b + s - 1 := Nat.div_mul_le_self _ _
  have h3 : (i + 1) * s = i * s + s := by ring
  omega

theorem mem_strideList_lt {b s u : ℕ} (hs : 1 ≤ s) (hu : u ∈ strideList b s) : u < b := by
  rw [strideList_eq b s hs] at hu
  obtain ⟨i, hi, rfl⟩ := List.mem_map.mp hu
  exact strideIndex_lt hs (List.mem_range.mp hi)

theorem zero_mem_strideList (b s : ℕ) (hb : 1 ≤ b) : 0 ∈ strideList b s := by
  unfold strideList
  cases b with
  | zero => omega
  | succ b =>
    simp only [strideListAux, Nat.zero_lt_succ, if_pos]
    exact List.mem_cons_self _ _

theorem zero_zero_mem_visitedCoords (w h s : ℕ) (hw : 1 ≤ w) (hh : 1 ≤ h) :
    (0, 0) ∈ visitedCoords w h s := by
  unfold visitedCoords
  rw [List.mem_flatMap]
  refine ⟨0, zero_mem_strideList h s hh, ?_⟩
  rw [List.mem_filterMap]
  refine ⟨0, zero_mem_strideList w s hw, ?_⟩
  rw [if_neg (by omega)]

theorem filterMap_if_not {α β : Type} (l : List α) (p : α → Prop) [DecidablePred p]
    (f : α → β) (h : ∀ a ∈ l, ¬ p a) :
    (l.filterMap fun a => if p a then none else some (f a)) = l.map f := by
  induction l with
  | nil => rfl
  | cons a t ih =>
    rw [List.filterMap_cons, List.map_cons]
    rw [if_neg (h a (List.mem_cons_self a t))]
    rw [ih fun x hx => h x (List.mem_cons_of_mem a hx)]

theorem flatMap_congr_mem {α β : Type} (l : List α) (f g : α → List β)
    (h : ∀ a ∈ l, f a = g a) : l.flatMap f = l.flatMap g := by
  induction l with
  | nil => rfl
  | cons a t ih =>
    rw [List.flatMap_cons, List.flatMap_cons, h a (List.mem_cons_self a t),
      ih fun x hx => h x (List.mem_cons_of_mem a hx)]

theorem flatMap_map_left {α β γ : Type} (l : List α) (g : α → β) (f : β → List γ) :
    (l.map g).flatMap f = l.flatMap fun a => f (g a) := by
  induction l with
  | nil => rfl
  | cons a t ih =>
    rw [List.map_cons, List.flatMap_cons, List.flatMap_cons, ih]

theorem visitedCoords_eq (w h s : ℕ) (hs : 1 ≤ s) :
    visitedCoords w h s = rowMajorGrid w h s := by
  unfold visitedCoords rowMajorGrid
  rw [strideList_eq h s hs, flatMap_map_left]
  apply flatMap_congr_mem
  intro j hj
  have hjh : j * s < h := strideIndex_lt hs (List.mem_range.mp hj)
  rw [strideList_eq w s hs]
  have hfm :
      ((List.range (cdiv w s)).map (· * s)).filterMap
          (fun u => if h ≤ j * s ∨ w ≤ u then none else some (u, j * s))
        = ((List.range (cdiv w s)).map (· * s)).map fun u => (u, j * s) := by
    apply filterMap_if_not
    intro u hu
    obtain ⟨i, hi, rfl⟩ := List.mem_map.mp hu
    have hiw : i * s < w := strideIndex_lt hs (List.mem_range.mp hi)
    omega
  rw [hfm, List.map_map]
  rfl

theorem rowMajorGrid_length (w h s : ℕ) :
    (rowMajorGrid w h s).length = cdiv h s * cdiv w s := by
  unfold rowMajorGrid
  rw [List.length_flatMap]
  have hmap :
      (List.map (List.length ∘ fun j => (List.range (cdiv w s)).map fun i => (i * s, j * s))
        (List.range (cdiv h s)))
      = List.map (fun _ => cdiv w s) (List.range (cdiv h s)) := by
    apply List.map_congr_left
    intro j _
    simp
  rw [hmap, List.map_const', List.sum_replicate, List.length_range, smul_eq_mul]

theorem gen_ok_inv {img dep : RawImage} {focal_length : ℚ} {stride : ℕ}
    {r : depth_cloud_result_t}
    (hok : (generate_depth_cloud (some img) (some dep) focal_length stride).result = .ok r) :
    (img.width = dep.width ∧ img.height = dep.height ∧
      img.channels = 3 ∧ dep.channels = 1) ∧
    r.vertices = (visitedCoords img.width img.height stride).map
      (pixelVertex img dep focal_length) ∧
    r.max_depth = (visitedCoords img.width img.height stride).foldl
      (fun m uv => maxStep m (depthAt img dep uv.1 uv.2)) 0 := by
  by_cases hval : img.width ≠ dep.width ∨ img.height ≠ dep.height ∨
      img.channels ≠ 3 ∨ dep.channels ≠ 1
  · exfalso
    simp only [generate_depth_cloud, if_pos hval] at hok
    exact Except.noConfusion hok
  · push_neg at hval
    obtain ⟨h1, h2, h3, h4⟩ := hval
    have hcond : ¬(img.width ≠ dep.width ∨ img.height ≠ dep.height ∨
        img.channels ≠ 3 ∨ dep.channels ≠ 1) := by
      push_neg
      exact ⟨h1, h2, h3, h4⟩
    simp only [generate_depth_cloud] at hok
    rw [if_neg hcond] at hok
    have heq := Except.ok.inj hok
    refine ⟨⟨h1, h2, h3, h4⟩, ?_, ?_⟩
    · rw [← heq]
    · rw [← heq]

theorem foldl_maxStep_mem (l : List ℚ) : ∀ init, l.foldl maxStep init ∈ init :: l := by
  induction l with
  | nil => intro init; simp
  | cons d t ih =>
    intro init
    rw [List.foldl_cons]
    have h1 := ih (maxStep init d)
    rcases List.mem_cons.mp h1 with h2 | h2
    · rw [h2]
      unfold maxStep
      by_cases hd : d > init
      · rw [if_pos hd]
        exact List.mem_cons.mpr (Or.inr (List.mem_cons_self d t))
      · rw [if_neg hd]
        exact List.mem_cons_self init (d :: t)
    · exact List.mem_cons.mpr (Or.inr (List.mem_cons.mpr (Or.inr h2)))

theorem init_le_foldl_maxStep (l : List ℚ) : ∀ init, init ≤ l.foldl maxStep init := by
  induction l with
  | nil => intro init; simp
  | cons d t ih =>
    intro init
    rw [List.foldl_cons]
    refine le_trans ?_ (ih (maxStep init d))
    unfold maxStep
    by_cases hd : d > init
    · rw [if_pos hd]; exact le_of_lt hd
    · rw [if_neg hd]

theorem mem_le_foldl_maxStep (l : List ℚ) : ∀ init, ∀ x ∈ l, x ≤ l.foldl maxStep init := by
  induction l with
  | nil => intro init x hx; exact absurd hx (List.not_mem_nil x)
  | cons d t ih =>
    intro init x hx
    rw [List.foldl_cons]
    rcases List.mem_cons.mp hx with h2 | h2
    · refine le_trans ?_ (init_le_foldl_maxStep t (maxStep init d))
      rw [h2]
      unfold maxStep
      by_cases hd : d > init
      · rw [if_pos hd]
      · rw [if_neg hd]; exact le_of_not_lt hd
    · exact ih (maxStep init d) x h2

theorem expandGrayTo3_getD (src : List ℕ) :
    ∀ k, (expandGrayTo3 src).getD (k * 3) 0 = src.getD k 0 := by
  induction src with
  | nil => intro k; rfl
  | cons g t ih =>
    intro k
    cases k with
    | zero => rfl
    | succ k =>
      have hstep : expandGrayTo3 (g :: t) = g :: g :: g :: expandGrayTo3 t := by
        simp [expandGrayTo3]
      have hidx : (k + 1) * 3 = k * 3 + 1 + 1 + 1 := by ring
      rw [hstep, hidx, List.getD_cons_succ, List.getD_cons_succ, List.getD_cons_succ,
        List.getD_cons_succ, ih k]

theorem depthAt_nonneg (img dep : RawImage) (u v : ℕ) : 0 ≤ depthAt img dep u v := by
  unfold depthAt
  positivity

/-! ## Claims -/

/-- Claim C1: for every pixel (u, v) visited by generate_depth_cloud on a
valid equal-resolution pair of dimensions (w, h) with focal length f, the
vertex appended for that pixel has position exactly
(d * (w - u - w/2) / f, d * (h - v - h/2) / f, d), where d is the depth
value read at that pixel — the mirrored axes (w - u, h - v) preserved. -/
theorem c1_position_formula (img dep : RawImage) (focal_length : ℚ) (stride : ℕ)
    (r : depth_cloud_result_t)
    (hok : (generate_depth_cloud (some img) (some dep) focal_length stride).result = .ok r)
    (i u v : ℕ)
    (hm : (visitedCoords img.width img.height stride).get? i = some (u, v)) :
    ∃ vert, r.vertices.get? i = some vert ∧
      vert.position =
        (depthAt img dep u v * ((img.width : ℚ) - (u : ℚ) - (img.width : ℚ) / 2) / focal_length,
         depthAt img dep u v * ((img.height : ℚ) - (v : ℚ) - (img.height : ℚ) / 2) / focal_length,
         depthAt img dep u v) := by
  obtain ⟨-, hvert, -⟩ := gen_ok_inv hok
  refine ⟨pixelVertex img dep focal_length (u, v), ?_, ?_⟩
  · rw [hvert, List.get?_map, hm]
    rfl
  · show (depthAt img dep u v * ((img.width : ℚ) - (u : ℚ) - (img.width : ℚ) * (1/2)) / focal_length,
        depthAt img dep u v * ((img.height : ℚ) - (v : ℚ) - (img.height : ℚ) * (1/2)) / focal_length,
        depthAt img dep u v) = _
    refine Prod.ext ?_ (Prod.ext ?_ rfl) <;> simp <;> ring

/-- Witness for C1: the concrete 1x1 pair, focal length 2, pixel (0, 0). -/
theorem c1_position_formula_witness :
    ∃ vert, c1res.vertices.get? 0 = some vert ∧
      vert.position =
        (depthAt c1img c1dep 0 0 * ((c1img.width : ℚ) - ((0:ℕ) : ℚ) - (c1img.width : ℚ) / 2) / 2,
         depthAt c1img c1dep 0 0 * ((c1img.height : ℚ) - ((0:ℕ) : ℚ) - (c1img.height : ℚ) / 2) / 2,
         depthAt c1img c1dep 0 0) :=
  c1_position_formula c1img c1dep 2 1 c1res rfl 0 0 0 rfl

/-- Claim C2: the depth value used for a visited pixel (u, v) equals the
genuinely single-channel depth source sample at single-channel index
u + v * width, divided by 255.  The code indexes the decoded depth buffer
with the color image channel count, index = (u + v * w) * ch1, but the
depth buffer was decoded with 3 requested channels (gray replicated into
all three), so that index lands exactly on the pixel's own gray sample. -/
theorem c2_depth_single_channel_sample (img dep : RawImage) (src : List ℕ)
    (focal_length : ℚ) (stride : ℕ) (r : depth_cloud_result_t)
    (hexp : dep.data = expandGrayTo3 src)
    (hok : (generate_depth_cloud (some img) (some dep) focal_length stride).result = .ok r)
    (i u v : ℕ)
    (hm : (visitedCoords img.width img.height stride).get? i = some (u, v)) :
    ∃ vert, r.vertices.get? i = some vert ∧
      vert.position.2.2 = (src.getD (u + v * img.width) 0 : ℚ) / 255 := by
  obtain ⟨⟨-, -, hch, -⟩, hvert, -⟩ := gen_ok_inv hok
  refine ⟨pixelVertex img dep focal_length (u, v), ?_, ?_⟩
  · rw [hvert, List.get?_map, hm]
    rfl
  · show depthAt img dep u v = _
    unfold depthAt grayAt
    rw [hch, hexp, expandGrayTo3_getD]

/-- Witness for C2: 2x1 pair whose depth source is [5, 9]; at pixel
(1, 0) the depth used is 9/255, the source sample at index 1. -/
theorem c2_depth_single_channel_sample_witness :
    ∃ vert, c2res.vertices.get? 1 = some vert ∧
      vert.position.2.2 = ([5, 9].getD (1 + 0 * c2img.width) 0 : ℚ) / 255 :=
  c2_depth_single_channel_sample c2img c2dep [5, 9] 1 1 c2res rfl rfl 1 1 0 rfl

/-- Claim C3: on a valid pair with stride ≥ 1 the produced vertex list is
exactly the per-pixel map over the row-major strided grid, hence contains
exactly ceil(h/stride) * ceil(w/stride) points in row-major scan order,
with no row or column dropped or duplicated. -/
theorem c3_count_and_order (img dep : RawImage) (focal_length : ℚ) (stride : ℕ)
    (r : depth_cloud_result_t) (hs : 1 ≤ stride)
    (hok : (generate_depth_cloud (some img) (some dep) focal_length stride).result = .ok r) :
    r.vertices = (rowMajorGrid img.width img.height stride).map
        (pixelVertex img dep focal_length) ∧
    r.vertices.length = cdiv img.height stride * cdiv img.width stride := by
  obtain ⟨-, hvert, -⟩ := gen_ok_inv hok
  constructor
  · rw [hvert, visitedCoords_eq img.width img.height stride hs]
  · rw [hvert, List.length_map, visitedCoords_eq img.width img.height stride hs,
      rowMajorGrid_length]

/-- Witness for C3: 3x2 pair with stride 2 yields ceil(2/2)*ceil(3/2) = 2
points in grid order. -/
theorem c3_count_and_order_witness :
    c3res.vertices = (rowMajorGrid c3img.width c3img.height 2).map (pixelVertex c3img c3dep 1) ∧
    c3res.vertices.length = cdiv c3img.height 2 * cdiv c3img.width 2 :=
  c3_count_and_order c3img c3dep 1 2 c3res (by decide) rfl

/-- Claim C4: max_depth equals the maximum of gray/255 over exactly the
visited (strided) pixels: it is attained at some visited pixel and bounds
the depth of every visited pixel. -/
theorem c4_max_depth_visited (img dep : RawImage) (focal_length : ℚ) (stride : ℕ)
    (r : depth_cloud_result_t) (hs : 1 ≤ stride)
    (hw : 1 ≤ img.width) (hh : 1 ≤ img.height)
    (hok : (generate_depth_cloud (some img) (some dep) focal_length stride).result = .ok r) :
    (∃ uv ∈ visitedCoords img.width img.height stride,
        depthAt img dep uv.1 uv.2 = r.max_depth) ∧
    ∀ uv ∈ visitedCoords img.width img.height stride,
        depthAt img dep uv.1 uv.2 ≤ r.max_depth := by
  obtain ⟨-, -, hmax⟩ := gen_ok_inv hok
  have hfold : r.max_depth =
      ((visitedCoords img.width img.height stride).map
        (fun uv => depthAt img dep uv.1 uv.2)).foldl maxStep 0 := by
    rw [hmax, List.foldl_map]
  constructor
  · have hmem := foldl_maxStep_mem ((visitedCoords img.width img.height stride).map
      (fun uv => depthAt img dep uv.1 uv.2)) 0
    rcases List.mem_cons.mp hmem with h0 | h1
    · refine ⟨(0, 0), zero_zero_mem_visitedCoords img.width img.height stride hw hh, ?_⟩
      have hle := mem_le_foldl_maxStep ((visitedCoords img.width img.height stride).map
          (fun uv => depthAt img dep uv.1 uv.2)) 0 (depthAt img dep 0 0)
        (List.mem_map_of_mem _ (zero_zero_mem_visitedCoords img.width img.height stride hw hh))
      have hge := depthAt_nonneg img dep 0 0
      show depthAt img dep 0 0 = r.max_depth
      rw [hfold, h0]
      rw [h0] at hle
      linarith
    · obtain ⟨uv, huv, heq⟩ := List.mem_map.mp h1
      refine ⟨uv, huv, ?_⟩
      show depthAt img dep uv.1 uv.2 = r.max_depth
      rw [hfold]
      exact heq
  · intro uv huv
    rw [hfold]
    exact mem_le_foldl_maxStep _ 0 _ (List.mem_map_of_mem _ huv)

/-- Witness for C4: the 1x1 pair with depth source sample 7, stride 1. -/
theorem c4_max_depth_visited_witness :
    (∃ uv ∈ visitedCoords c1img.width c1img.height 1,
        depthAt c1img c4dep uv.1 uv.2 = c4res.max_depth) ∧
    ∀ uv ∈ visitedCoords c1img.width c1img.height 1,
        depthAt c1img c4dep uv.1 uv.2 ≤ c4res.max_depth :=
  c4_max_depth_visited c1img c4dep 1 1 c4res (by decide) (by decide) (by decide) rfl

/-- Claim C5: on every exit path of the two-path shader program build —
read failure of either source, vertex-stage compile failure,
fragment-stage compile failure, link failure, or success — the set of
live shader-stage handles after the call equals the set before it; in
particular a vertex stage that compiled is released when the fragment
stage fails. -/
theorem c5_no_stage_handle_survives (st : GLState) (vsRead fsRead : Except String String)
    (vsOk : Bool) (vsLog : String) (fsOk : Bool) (fsLog : String)
    (linkOk : Bool) (linkLog : String) :
    (create_program_from_files st vsRead fsRead vsOk vsLog fsOk fsLog
        linkOk linkLog).1.liveShaders
      = st.liveShaders := by
  cases vsRead with
  | error e => rfl
  | ok vsrc =>
    cases fsRead with
    | error e => rfl
    | ok fsrc =>
      cases vsOk <;> cases fsOk <;> cases linkOk <;>
        simp [create_program_from_files, create_shader, create_program_link,
          glCreateShader, glDeleteShader, glCreateProgram, glDeleteProgram,
          List.erase_cons, Nat.succ_ne_self]

/-- Claim C6: whenever both rasters decode but the widths differ, the
heights differ, the color raster does not report exactly 3 channels, or
the depth raster does not report exactly 1 channel, generate_depth_cloud
returns the FormatMismatchError, frees both rasters, and produces no
point cloud at all. -/
theorem c6_format_mismatch_rejects (img dep : RawImage) (focal_length : ℚ) (stride : ℕ)
    (hmm : img.width ≠ dep.width ∨ img.height ≠ dep.height ∨
      img.channels ≠ 3 ∨ dep.channels ≠ 1) :
    generate_depth_cloud (some img) (some dep) focal_length stride =
      { result := .error "Image and depth map not same resolution or invalid channel count.",
        freedColor := true, freedDepth := true } := by
  simp only [generate_depth_cloud]
  rw [if_pos hmm]

/-- Witness for C6: the specification example, color 4x4x3 against depth
2x2x1. -/
theorem c6_format_mismatch_rejects_witness :
    generate_depth_cloud (some c6img) (some c6dep) 1 1 =
      { result := .error "Image and depth map not same resolution or invalid channel count.",
        freedColor := true, freedDepth := true } :=
  c6_format_mismatch_rejects c6img c6dep 1 1 (by decide)

/-- Claim C7, evaluated at the failing input: when the color raster
decodes but the depth file does not, generate_depth_cloud returns the
IoError with neither raster freed — the early return of main.cpp lines
149-150 performs no stbi_image_free call, so the decoded color raster
leaks, contradicting the claim that every decoded raster is released on
every return path. -/
theorem c7_io_error_leaks_decoded_raster :
    generate_depth_cloud (some c1img) none 1 1 =
      { result := .error "Failed to read image or depth map.",
        freedColor := false, freedDepth := false } := rfl

/-- Claim C8: when a reconstruction attempt fails, the Generate handler
records only the error message: the displayed vertices option, the
camera origin and the per-instance buffer contents are left exactly as
they were. -/
theorem c8_failed_generate_preserves_session (sess : Session)
    (pixels1 pixels2 : Option RawImage) (focal_length : ℚ) (stride : ℕ) (e : String)
    (herr : (generate_depth_cloud pixels1 pixels2 focal_length stride).result = .error e) :
    (onGenerateClick sess (generate_depth_cloud pixels1 pixels2 focal_length stride)).vertices
        = sess.vertices ∧
    (onGenerateClick sess (generate_depth_cloud pixels1 pixels2 focal_length stride)).camera.origin
        = sess.camera.origin ∧
    (onGenerateClick sess (generate_depth_cloud pixels1 pixels2 focal_length
        stride)).instanceBuffer
        = sess.instanceBuffer := by
  simp [onGenerateClick, herr]

/-- Witness for C8: a failing attempt (both loads fail) on a session
with the initial camera. -/
theorem c8_failed_generate_preserves_session_witness :
    (onGenerateClick c8sess (generate_depth_cloud none none 1 1)).vertices = c8sess.vertices ∧
    (onGenerateClick c8sess (generate_depth_cloud none none 1 1)).camera.origin
        = c8sess.camera.origin ∧
    (onGenerateClick c8sess (generate_depth_cloud none none 1 1)).instanceBuffer
        = c8sess.instanceBuffer :=
  c8_failed_generate_preserves_session c8sess none none 1 1
    "Failed to read image or depth map." rfl

/-- Counterexample to claim C9 as stated: at distance 1 and zoom scale
1/10, a positive wheel direction yields distance 1 / (1 + 1/10) = 10/11,
not the claimed 1 * (1 - 1/10) = 9/10. -/
theorem c9_zoom_claim_counterexample :
    (applyZoom c9cam 1).distance ≠ max 0 (c9cam.distance * (1 - c9cam.zoom_scale)) := by
  have h1 : (applyZoom c9cam 1).distance = max 0 (1 / (1 + 1/10)) := by
    simp [applyZoom, c9cam, initial_camera]
  rw [h1, c9cam]
  rw [max_eq_right (by norm_num : (0:ℚ) ≤ 1 / (1 + 1/10))]
  have h2 : (({ initial_camera with distance := 1 } : camera_t).distance *
      (1 - ({ initial_camera with distance := 1 } : camera_t).zoom_scale)) = 9/10 := by
    simp [initial_camera]
    norm_num
  rw [h2, max_eq_right (by norm_num : (0:ℚ) ≤ 9/10)]
  norm_num

/-- Claim C9 amended: for every camera state and wheel input, applyZoom
multiplies the distance by (1 + zoomScale) when the direction is
negative and divides it by (1 + zoomScale) when the direction is
positive, and the resulting distance is clamped to be nonnegative. -/
theorem c9_zoom_amended (c : camera_t) (wheelY : ℤ) :
    (applyZoom c wheelY).distance =
      max 0 (if 0 < wheelY then c.distance / (1 + c.zoom_scale)
             else if wheelY < 0 then c.distance * (1 + c.zoom_scale)
             else c.distance) ∧
    0 ≤ (applyZoom c wheelY).distance := by
  constructor
  · by_cases h1 : 0 < wheelY
    · simp [applyZoom, h1]
    · by_cases h2 : wheelY < 0 <;> simp [applyZoom, h1, h2]
  · show 0 ≤ max 0 _
    exact le_max_left 0 _

theorem strideListAux_zero_stride_length (b : ℕ) (hb : 1 ≤ b) :
    ∀ f, (strideListAux f b 0 0).length = f := by
  intro f
  induction f with
  | zero => rfl
  | succ f ih =>
    simp only [strideListAux]
    rw [if_pos (by omega : 0 < b)]
    simpa using ih

/-- Claim C10: with stride ≥ 1 the loop embedding is already final at
fuel equal to the loop bound — any fuel at least the bound computes the
same visit list, so the pixel loops terminate — while with stride 0 the
iteration consumes every unit of fuel (the fuel-b approximation has
length b), so the loop would never finish: stride ≥ 1 is a necessary
precondition. -/
theorem c10_loop_termination (b s f : ℕ) (hs : 1 ≤ s) (hf : b ≤ f) :
    strideListAux f b s 0 = strideList b s ∧
    (strideListAux b b 0 0).length = b := by
  constructor
  · rw [strideListAux_eq s hs f b 0 (by omega)]
    unfold strideList
    rw [strideListAux_eq s hs b b 0 (by omega)]
  · rcases Nat.eq_zero_or_pos b with hb | hb
    · rw [hb]
      rfl
    · exact strideListAux_zero_stride_length b hb b

/-- Witness for C10 at bound 3, stride 2, fuel 5. -/
theorem c10_loop_termination_witness :
    strideListAux 5 3 2 0 = strideList 3 2 ∧ (strideListAux 3 3 0 0).length = 3 :=
  c10_loop_termination 3 2 5 (by decide) (by decide)
